import Mathlib

/-!
Shallow embedding of `lib/swarm.js` from the bittorrent-tracker repository.

The file holds both halves of the source: the server-side `Swarm` registry
(peer map, aggregate counts, the announce event dispatch) and the client-side
`HTTPTracker` response handlers (`_onAnnounceResponse`, `_onScrapeResponse`).

Modelling conventions:
* The JavaScript object `this.peers` maps address strings to a peer record,
  to `null` (a tombstone left by `stopped`), or is missing the key entirely.
  It is embedded as an insertion-ordered association list
  `List (String × Option PeerRecord)`; assigning to an existing key keeps its
  position (as JS property assignment does), assigning a fresh key appends.
* A newly created peer record has no `complete` property in the source; reads
  of the absent property are falsy, so the field is embedded as a `Bool`
  that starts `false`.
* Counts are `Int`: the source uses plain JS numbers and can drive them
  negative.
* `cb` outcomes of `announce` are reified: `response` (cb called with `null`
  error and the payload), `invalidEvent` (cb called with the error), and two
  anomaly outcomes present in the source: `noCallback` (a handler returned
  without ever invoking `cb`) and `thrown` (the handler referenced the
  undefined identifier `start`, raising a `ReferenceError`; no state had been
  mutated at that point).
-/

/-- One live entry of `this.peers`, as created by `_onAnnounce_started`
(fields `ip`, `port`, `peerId`; `complete` absent at creation, i.e. falsy). -/
structure PeerRecord where
  ip : String
  port : Nat
  peerId : String
  complete : Bool
deriving Repr, DecidableEq

/-- The peer map: insertion-ordered association list; `none` is the `null`
tombstone written by `_onAnnounce_stopped`. -/
abbrev PeerMap := List (String × Option PeerRecord)

/-- JS property read `this.peers[addr]` collapsed to "a live record or not":
both a missing key and a `null` tombstone are falsy in every guard of the
source (`if (peer)`, `if (!peer)`). -/
def getLive (m : PeerMap) (addr : String) : Option PeerRecord :=
  match m.lookup addr with
  | some (some r) => some r
  | _ => none

/-- JS property write `this.peers[addr] = v`: updates in place when the key
exists (position preserved, as JS enumeration order is), appends otherwise. -/
def setKey (m : PeerMap) (addr : String) (v : Option PeerRecord) : PeerMap :=
  if m.any (fun kv => kv.1 = addr) then
    m.map (fun kv => if kv.1 = addr then (addr, v) else kv)
  else
    m ++ [(addr, v)]

/-- The `Swarm` state: `this.peers`, `this.complete`, `this.incomplete`
(`infoHash` is stored but never read by the embedded operations). -/
structure Swarm where
  infoHash : String
  peers : PeerMap
  complete : Int
  incomplete : Int
deriving Repr, DecidableEq

/-- `new Swarm(infoHash, server)`: empty map, both counts zero. -/
def Swarm.init (infoHash : String) : Swarm :=
  { infoHash := infoHash, peers := [], complete := 0, incomplete := 0 }

/-- The `params` argument of `Swarm.prototype.announce`. `left` is `Option`
because the source compares with strict equality (`params.left === 0`), which
is false when the property is absent; `event` is `Option` for the same
reason (`!params.event`); a JS empty-string event is also falsy and is
modelled as `some ""`. -/
structure AnnounceParams where
  addr : String
  ip : String
  port : Nat
  peer_id : String
  left : Option Nat
  event : Option String
  numwant : Option Nat
deriving Repr, DecidableEq

/-- Events the registry emits to the owning server
(`this.emit('start' | 'stop' | 'complete' | 'update', params.addr)`). -/
inductive SwarmEvent where
  | start (addr : String)
  | stop (addr : String)
  | complete (addr : String)
  | update (addr : String)
deriving Repr, DecidableEq

/-- Out-shape of one element of `_getPeers`: `{'peer id', ip, port}`. -/
structure PeerOut where
  peerId : String
  ip : String
  port : Nat
deriving Repr, DecidableEq

/-- How one `announce` call resolved, seen from the caller of `cb`. -/
inductive AnnounceOutcome where
  /-- `cb(null, {complete, incomplete, peers})` was invoked. -/
  | response (complete incomplete : Int) (peers : List PeerOut)
  /-- `cb(new Error('invalid event'))` was invoked. -/
  | invalidEvent
  /-- a handler returned without invoking `cb` (the `stopped`-without-peer
  and duplicate-`completed` branches). -/
  | noCallback
  /-- the handler evaluated the undefined identifier `start` (the
  `completed`/`update`-without-peer branches, and `started` on a live peer
  via the argument-less re-dispatch `this._onAnnounce_update()`). -/
  | thrown
deriving Repr, DecidableEq

/-- `if (!params.event || params.event === 'empty') params.event = 'update'`. -/
def normalizeEvent : Option String → String
  | none => "update"
  | some e => if e = "" ∨ e = "empty" then "update" else e

/-- The loop break guard of `_getPeers`: `peers.length >= numwant`. When
`numwant` is `undefined` the JS comparison is `NaN`-style and always false. -/
def numwantReached : Option Nat → Nat → Bool
  | some n, len => len ≥ n
  | none, _ => false

/-- The `for (var peerId in this.peers)` loop body of `_getPeers`:
check the break guard, skip `null` tombstones, collect the out-shape. -/
def getPeersLoop (numwant : Option Nat) : PeerMap → List PeerOut → List PeerOut
  | [], acc => acc
  | kv :: rest, acc =>
    if numwantReached numwant acc.length then acc
    else
      match kv.2 with
      | none => getPeersLoop numwant rest acc
      | some r => getPeersLoop numwant rest (acc ++ [⟨r.peerId, r.ip, r.port⟩])

/-- `Swarm.prototype._getPeers(numwant)`. -/
def Swarm._getPeers (s : Swarm) (numwant : Option Nat) : List PeerOut :=
  getPeersLoop numwant s.peers []

/-- The fixup running inside the `cb` closure of `announce`:
`if (params.left === 0 && peer) peer.complete = true`. `peer` there is the
binding captured *before* dispatch, so the guard holds only when the address
was live pre-dispatch; the mutation lands on that captured object, which is
still the map's entry unless `stopped` tombstoned the slot (then the write
hits a detached object and the map is unchanged — hence "set the flag on the
live entry, if any"). -/
def leftZeroFixup (p : AnnounceParams) (preDispatch : Option PeerRecord)
    (m : PeerMap) : PeerMap :=
  if p.left = some 0 ∧ preDispatch.isSome then
    m.map (fun kv =>
      if kv.1 = p.addr then
        match kv.2 with
        | some r => (kv.1, some { r with complete := true })
        | none => kv
      else kv)
  else m

/-- The tail of `announce` once a handler has invoked `cb`: run the
`left === 0` fixup, then answer with the current counts and
`_getPeers(params.numwant)`. -/
def finishAnnounce (p : AnnounceParams) (preDispatch : Option PeerRecord)
    (s : Swarm) (evs : List SwarmEvent) :
    Swarm × List SwarmEvent × AnnounceOutcome :=
  let s2 := { s with peers := leftZeroFixup p preDispatch s.peers }
  (s2, evs, .response s2.complete s2.incomplete (s2._getPeers p.numwant))

/-- `Swarm.prototype.announce(params, cb)` with the four
`_onAnnounce_<event>` handlers inlined at their dispatch sites
(`self['_onAnnounce_' + params.event]` resolves to a function exactly for
`started`, `stopped`, `completed`, `update`). -/
def Swarm.announce (s : Swarm) (p : AnnounceParams) :
    Swarm × List SwarmEvent × AnnounceOutcome :=
  let peer := getLive s.peers p.addr
  let ev := normalizeEvent p.event
  if ev = "started" then
    -- _onAnnounce_started
    match peer with
    | some _ =>
      -- `return this._onAnnounce_update()` passes no arguments, so inside
      -- `_onAnnounce_update` the `!peer` branch runs `return start()`,
      -- and `start` is not defined anywhere: ReferenceError.
      (s, [], .thrown)
    | none =>
      let s1 :=
        if p.left = some 0 then { s with complete := s.complete + 1 }
        else { s with incomplete := s.incomplete + 1 }
      let s2 := { s1 with
        peers := setKey s1.peers p.addr (some ⟨p.ip, p.port, p.peer_id, false⟩) }
      finishAnnounce p peer s2 [.start p.addr]
  else if ev = "stopped" then
    -- _onAnnounce_stopped
    match peer with
    | none => (s, [], .noCallback)  -- `return // do nothing` (cb never called)
    | some r =>
      let s1 :=
        if r.complete then { s with complete := s.complete - 1 }
        else { s with incomplete := s.incomplete - 1 }
      let s2 := { s1 with peers := setKey s1.peers p.addr none }
      finishAnnounce p peer s2 [.stop p.addr]
  else if ev = "completed" then
    -- _onAnnounce_completed
    match peer with
    | none => (s, [], .thrown)  -- `return start()`: ReferenceError
    | some r =>
      if r.complete then (s, [], .noCallback)  -- duplicate `completed`
      else
        let s1 := { s with complete := s.complete + 1,
                           incomplete := s.incomplete - 1 }
        let s2 := { s1 with
          peers := setKey s1.peers p.addr (some { r with complete := true }) }
        finishAnnounce p peer s2 [.complete p.addr]
  else if ev = "update" then
    -- _onAnnounce_update
    match peer with
    | none => (s, [], .thrown)  -- `return start()`: ReferenceError
    | some _ => finishAnnounce p peer s [.update p.addr]
  else
    (s, [], .invalidEvent)  -- `cb(new Error('invalid event'))`

/-- `Swarm.prototype.scrape(infoHash, params, cb)`: answers
`{complete, incomplete}` and touches neither argument. -/
def Swarm.scrape {α β : Type} (s : Swarm) (_infoHash : α) (_params : β) :
    Int × Int :=
  (s.complete, s.incomplete)

/-! ## Client side: `HTTPTracker` response handlers -/

/-- Negotiated client-side state of one `HTTPTracker` that the response
handlers read or write: `_announceUrl`, `_intervalMs`, `_opts.interval`
(the caller-pinned interval, if any) and the sticky `_trackerId`.
The live timer handle is not part of the embedding; `setInterval`'s
observable effect on this state is recording `_intervalMs`. -/
structure HTTPTracker where
  _announceUrl : String
  _intervalMs : Nat
  _optsInterval : Option Nat
  _trackerId : Option String
deriving Repr, DecidableEq

/-- `HTTPTracker.prototype.setInterval(intervalMs)` restricted to its state
effect: `self._intervalMs = intervalMs` (timer bookkeeping abstracted away). -/
def HTTPTracker.setInterval (t : HTTPTracker) (intervalMs : Nat) : HTTPTracker :=
  { t with _intervalMs := intervalMs }

/-- Events the client emits to its owner in the embedded handlers. -/
inductive ClientEvent where
  | update (announce : String) (complete incomplete : Option Int)
  | peer (addr : String)
  | scrape (announce : String) (infoHash : String)
      (complete incomplete downloaded : Option Int)
  | warning (message : String)
deriving Repr, DecidableEq

/-- The `peers` / `peers6` field of a decoded announce response: a raw
byte-string (compact form), a structured list (verbose form), or absent. -/
inductive PeersField where
  | absent
  | buf (bytes : List Nat)
  | list (peers : List (String × Nat))
deriving Repr, DecidableEq

/-- The decoded announce response fields `_onAnnounceResponse` consults.
Integer fields are `Option` because bencode dictionaries may omit them
(an absent JS property reads as `undefined`, which is falsy). -/
structure AnnounceResponseData where
  interval : Option Nat
  minInterval : Option Nat
  trackerId : Option String
  complete : Option Int
  incomplete : Option Int
  peers : PeersField
  peers6 : PeersField
deriving Repr, DecidableEq

/-- JS truthiness of a possibly-absent number: `undefined` and `0` are falsy. -/
def numTruthy : Option Nat → Bool
  | some n => n ≠ 0
  | none => false

/-- `var interval = data.interval || data['min interval']`. -/
def pickInterval (d : AnnounceResponseData) : Option Nat :=
  if numTruthy d.interval then d.interval else d.minInterval

/-- The IPv6 verbose-form address fixup of `_onAnnounceResponse`:
`/^\[/.test(ip) || !/:/.test(ip) ? ip : '[' + ip + ']'`. -/
def bracketIp (ip : String) : String :=
  if ip.startsWith "[" ∨ ¬ ip.contains ':' then ip else "[" ++ ip ++ "]"

/-- The `peers6` block at the tail of `_onAnnounceResponse` (reached only
when the `peers` block did not return early). -/
def peers6Block (decodeMulti6 : List Nat → Except String (List String))
    (t : HTTPTracker) (d : AnnounceResponseData) (evs : List ClientEvent) :
    HTTPTracker × List ClientEvent :=
  match d.peers6 with
  | .buf b =>
    match decodeMulti6 b with
    | .error e => (t, evs ++ [.warning e])
    | .ok addrs => (t, evs ++ addrs.map ClientEvent.peer)
  | .list ps =>
    (t, evs ++ ps.map (fun q => ClientEvent.peer (bracketIp q.1 ++ ":" ++ toString q.2)))
  | .absent => (t, evs)

/-- `HTTPTracker.prototype._onAnnounceResponse(data)`. The external
`compact2string.multi` / `multi6` codecs are parameters returning
`Except`: `.error` is the codec throwing, caught by the source's
`try { ... } catch (err) { return self.client.emit('warning', err) }` —
the `return` aborts the whole handler, so a failure on `peers` skips the
`peers6` block entirely. -/
def HTTPTracker._onAnnounceResponse
    (decodeMulti decodeMulti6 : List Nat → Except String (List String))
    (t : HTTPTracker) (d : AnnounceResponseData) :
    HTTPTracker × List ClientEvent :=
  let interval := pickInterval d
  let t1 :=
    if numTruthy interval ∧ ¬ numTruthy t._optsInterval ∧ t._intervalMs ≠ 0 then
      t.setInterval (interval.getD 0 * 1000)
    else t
  let t2 :=
    match d.trackerId with
    | some tid => { t1 with _trackerId := some tid }
    | none => t1
  let evs0 := [ClientEvent.update t._announceUrl d.complete d.incomplete]
  match d.peers with
  | .buf b =>
    match decodeMulti b with
    | .error e => (t2, evs0 ++ [.warning e])
    | .ok addrs => peers6Block decodeMulti6 t2 d (evs0 ++ addrs.map ClientEvent.peer)
  | .list ps =>
    peers6Block decodeMulti6 t2 d
      (evs0 ++ ps.map (fun q => ClientEvent.peer (q.1 ++ ":" ++ toString q.2)))
  | .absent => peers6Block decodeMulti6 t2 d evs0

/-- Lower-case hex digit. -/
def hexDigit (n : Nat) : Char :=
  if n < 10 then Char.ofNat (48 + n) else Char.ofNat (87 + n)

/-- Modelled from the spec: `common.binaryToHex` lives in `lib/common.js`,
which is not among the repository sources given; the spec says scrape events
carry "the hex-encoded info hash", so a byte string is rendered as two
lower-case hex digits per byte. -/
def binaryToHex (bytes : List Nat) : String :=
  String.join (bytes.map (fun b => String.mk [hexDigit (b / 16 % 16), hexDigit (b % 16)]))

/-- One entry of a scrape response mapping: `{complete, incomplete,
downloaded}` under an info-hash key (a binary string, embedded as bytes). -/
structure ScrapeEntry where
  complete : Option Int
  incomplete : Option Int
  downloaded : Option Int
deriving Repr, DecidableEq

/-- The decoded scrape response fields `_onScrapeResponse` consults: the
`files` and legacy `host` dictionaries, each possibly absent. A present
dictionary is a JS object and hence truthy even when empty. -/
structure ScrapeResponseData where
  files : Option (List (List Nat × ScrapeEntry))
  host : Option (List (List Nat × ScrapeEntry))
deriving Repr, DecidableEq

/-- `data = data.files || data.host || {}`: a *present* `files` object wins
even when empty (objects are truthy); otherwise a present `host`; otherwise
the empty mapping. -/
def chosenMapping (d : ScrapeResponseData) : List (List Nat × ScrapeEntry) :=
  match d.files with
  | some f => f
  | none =>
    match d.host with
    | some h => h
    | none => []

/-- `HTTPTracker.prototype._onScrapeResponse(data)`. -/
def HTTPTracker._onScrapeResponse (t : HTTPTracker) (d : ScrapeResponseData) :
    List ClientEvent :=
  let m := chosenMapping d
  if m.length = 0 then [.warning "invalid scrape response"]
  else
    m.map (fun kv =>
      ClientEvent.scrape t._announceUrl (binaryToHex kv.1)
        kv.2.complete kv.2.incomplete kv.2.downloaded)

/-- Count of `scrape` events in an emission list. -/
def scrapeEventCount (evs : List ClientEvent) : Nat :=
  (evs.filter (fun ev => match ev with | ClientEvent.scrape _ _ _ _ _ => true | _ => false)).length

/-- Count of `warning` events in an emission list. -/
def warningEventCount (evs : List ClientEvent) : Nat :=
  (evs.filter (fun ev => match ev with | ClientEvent.warning _ => true | _ => false)).length

/-- Count of `peer` events in an emission list. -/
def peerEventCount (evs : List ClientEvent) : Nat :=
  (evs.filter (fun ev => match ev with | ClientEvent.peer _ => true | _ => false)).length

/-! ## Derived notions used by the theorems -/

/-- The surviving (non-tombstoned) entries of the peer map, in insertion
order, in `_getPeers` out-shape. -/
def livePeers : PeerMap → List PeerOut
  | [] => []
  | (_, none) :: rest => livePeers rest
  | (_, some r) :: rest => ⟨r.peerId, r.ip, r.port⟩ :: livePeers rest

/-- Number of non-tombstoned entries of the peer map. -/
def liveEntryCount (m : PeerMap) : Int :=
  ((m.filterMap Prod.snd).length : Int)

/-- Number of non-tombstoned entries whose `complete` flag is set. -/
def completeFlagCount (m : PeerMap) : Int :=
  (((m.filterMap Prod.snd).filter (fun r => r.complete)).length : Int)

theorem getPeersLoop_none_eq (entries : PeerMap) (acc : List PeerOut) :
    getPeersLoop none entries acc = acc ++ livePeers entries := by
  induction entries generalizing acc with
  | nil => simp [getPeersLoop, livePeers]
  | cons kv rest ih =>
    obtain ⟨k, v⟩ := kv
    cases v with
    | none => simp [getPeersLoop, numwantReached, livePeers, ih]
    | some r => simp [getPeersLoop, numwantReached, livePeers, ih]

theorem getPeersLoop_some_eq (n : Nat) (entries : PeerMap) (acc : List PeerOut) :
    getPeersLoop (some n) entries acc =
      acc ++ (livePeers entries).take (n - acc.length) := by
  induction entries generalizing acc with
  | nil => simp [getPeersLoop, livePeers]
  | cons kv rest ih =>
    obtain ⟨k, v⟩ := kv
    by_cases h : n ≤ acc.length
    · have hz : n - acc.length = 0 := Nat.sub_eq_zero_of_le h
      have hc : numwantReached (some n) acc.length = true := by
        simp [numwantReached]; omega
      cases v <;> simp [getPeersLoop, hc, hz]
    · have hc : numwantReached (some n) acc.length = false := by
        simp [numwantReached]; omega
      cases v with
      | none => simp [getPeersLoop, hc, livePeers, ih]
      | some r =>
        have hm : n - acc.length = (n - (acc.length + 1)) + 1 := by omega
        simp [getPeersLoop, hc, livePeers, ih, hm, List.take_succ_cons]

/-! ## Concrete announce parameters used by the evaluation theorems -/

/-- `started` with `left == 0` at address `"a"`. -/
def exampleStart0 : AnnounceParams :=
  { addr := "a", ip := "1.2.3.4", port := 6881, peer_id := "p1",
    left := some 0, event := some "started", numwant := none }

/-- `started` with `left == 5` at address `"a"`. -/
def exampleStart5 : AnnounceParams := { exampleStart0 with left := some 5 }

/-- `stopped` at address `"a"`. -/
def exampleStop : AnnounceParams :=
  { exampleStart0 with event := some "stopped", left := none }

/-- `update` at address `"a"`. -/
def exampleUpdate : AnnounceParams :=
  { exampleStart0 with event := some "update", left := none }

/-- `completed` with `left == 0` at address `"a"`. -/
def exampleCompleted0 : AnnounceParams :=
  { exampleStart0 with event := some "completed" }

/-! ## Claim theorems -/

/-- C1: the claimed invariant fails on the code. A single `started` announce
with `left == 0` leaves `completeCount = 1` and `incompleteCount = 0` over one
live entry (the sum part holds), but that entry's `complete` flag is unset:
the record is created without the flag and the post-dispatch fixup tests the
stale pre-dispatch `peer` binding, so no entry with `complete = true` exists
while `completeCount` is `1` — the flag does not place the entry in the
bucket that counted it. -/
theorem C1_complete_flag_bucket_mismatch :
    (let s := ((Swarm.init "ih").announce exampleStart0).1
     s.complete = 1 ∧ s.incomplete = 0 ∧
     liveEntryCount s.peers = 1 ∧ completeFlagCount s.peers = 0) := by
  decide

/-- C2: the callback is not invoked exactly once on the anomaly branches.
`stopped` with no live record and a duplicate `completed` return without
calling `cb` at all; `update` or `completed` with no live record, and
`started` on a live record, evaluate the undefined identifier `start` and
throw a `ReferenceError` instead of answering. -/
theorem C2_callback_skipped_on_anomaly_branches :
    ((Swarm.init "ih").announce exampleStop).2.2 = AnnounceOutcome.noCallback ∧
    ((Swarm.init "ih").announce exampleUpdate).2.2 = AnnounceOutcome.thrown ∧
    ((Swarm.init "ih").announce exampleCompleted0).2.2 = AnnounceOutcome.thrown ∧
    (let s := ((Swarm.init "ih").announce exampleStart5).1
     (s.announce exampleStart5).2.2 = AnnounceOutcome.thrown) ∧
    (let s := ((Swarm.init "ih").announce exampleStart5).1
     let s2 := (s.announce exampleCompleted0).1
     (s2.announce exampleCompleted0).2.2 = AnnounceOutcome.noCallback) := by
  decide

/-- C3: `started` then `started` does not behave like `started` then
`update`. On an address with a live record a second `started` throws a
`ReferenceError` (the argument-less re-dispatch `this._onAnnounce_update()`
reaches `return start()` with `start` undefined) and produces no response,
while `update` answers normally with the current counts and peer list. -/
theorem C3_started_after_started_not_update :
    (let s := ((Swarm.init "ih").announce exampleStart5).1
     (s.announce exampleStart5).2.2 = AnnounceOutcome.thrown ∧
     (s.announce exampleUpdate).2.2 =
       AnnounceOutcome.response 0 1 [⟨"p1", "1.2.3.4", 6881⟩]) := by
  decide

/-- C4: `completed` on a never-seen address does not behave like `started`
with `left == 0`. The `completed` handler's no-record branch runs
`return start()` with `start` undefined, so it throws and creates nothing,
while `started` with `left == 0` creates the record, sets
`completeCount = 1` and responds. -/
theorem C4_completed_never_seen_not_started :
    ((Swarm.init "ih").announce exampleCompleted0).2.2 = AnnounceOutcome.thrown ∧
    ((Swarm.init "ih").announce exampleCompleted0).1 = Swarm.init "ih" ∧
    ((Swarm.init "ih").announce exampleStart0).2.2 =
      AnnounceOutcome.response 1 0 [⟨"p1", "1.2.3.4", 6881⟩] ∧
    ((Swarm.init "ih").announce exampleStart0).1 ≠ Swarm.init "ih" := by
  decide

/-- C5: an announce whose normalized event is none of
`started`/`stopped`/`completed`/`update` invokes the callback with the
invalid-event error, emits nothing, and leaves the registry state (peer map
and both counts) exactly as it was. -/
theorem C5_invalid_event_error_no_mutation (s : Swarm) (p : AnnounceParams)
    (h1 : normalizeEvent p.event ≠ "started")
    (h2 : normalizeEvent p.event ≠ "stopped")
    (h3 : normalizeEvent p.event ≠ "completed")
    (h4 : normalizeEvent p.event ≠ "update") :
    s.announce p = (s, [], AnnounceOutcome.invalidEvent) := by
  simp [Swarm.announce, h1, h2, h3, h4]

/-- C5 witness: the event string `"paused"` is not one of the four handlers,
and announcing it on a fresh registry returns the invalid-event outcome with
the state unchanged. -/
theorem C5_invalid_event_witness :
    normalizeEvent (some "paused") ≠ "started" ∧
    normalizeEvent (some "paused") ≠ "stopped" ∧
    normalizeEvent (some "paused") ≠ "completed" ∧
    normalizeEvent (some "paused") ≠ "update" ∧
    (Swarm.init "ih").announce { exampleStart0 with event := some "paused" } =
      (Swarm.init "ih", [], AnnounceOutcome.invalidEvent) :=
  ⟨by decide, by decide, by decide, by decide,
   C5_invalid_event_error_no_mutation (Swarm.init "ih")
     { exampleStart0 with event := some "paused" }
     (by decide) (by decide) (by decide) (by decide)⟩

/-- C6: `_getPeers(n)` equals the first `n` surviving entries of the peer map
in insertion order — hence at most `n` entries and no tombstoned slot — and
on the concrete run "A, B, C started, then B stopped" `_getPeers(2)` returns
the records of A and C. -/
theorem C6_getPeers_cap_live_order (s : Swarm) (n : Nat) :
    s._getPeers (some n) = (livePeers s.peers).take n ∧
    (s._getPeers (some n)).length ≤ n ∧
    (let startAt : String → String → AnnounceParams := fun ad pid =>
       { addr := ad, ip := "ip" ++ ad, port := 1, peer_id := pid,
         left := some 5, event := some "started", numwant := none }
     let s1 := ((Swarm.init "ih").announce (startAt "A" "pA")).1
     let s2 := (s1.announce (startAt "B" "pB")).1
     let s3 := (s2.announce (startAt "C" "pC")).1
     let s4 := (s3.announce
       { startAt "B" "pB" with event := some "stopped", left := none }).1
     s4._getPeers (some 2) = [⟨"pA", "ipA", 1⟩, ⟨"pC", "ipC", 1⟩]) := by
  have he : s._getPeers (some n) = (livePeers s.peers).take n := by
    unfold Swarm._getPeers
    rw [getPeersLoop_some_eq]
    simp
  refine ⟨he, ?_, by decide⟩
  rw [he, List.length_take]
  exact min_le_left _ _

/-- The scrape events built from a mapping contain no warning and exactly one
scrape event per key. -/
theorem scrapeEvents_of_mapping_counts (url : String)
    (l : List (List Nat × ScrapeEntry)) :
    warningEventCount (l.map (fun kv =>
      ClientEvent.scrape url (binaryToHex kv.1)
        kv.2.complete kv.2.incomplete kv.2.downloaded)) = 0 ∧
    scrapeEventCount (l.map (fun kv =>
      ClientEvent.scrape url (binaryToHex kv.1)
        kv.2.complete kv.2.incomplete kv.2.downloaded)) = l.length := by
  induction l with
  | nil => simp [warningEventCount, scrapeEventCount]
  | cons kv rest ih =>
    simp only [warningEventCount, scrapeEventCount, List.map_cons,
      List.filter_cons] at ih ⊢
    simpa using ih

/-- C7: `_onScrapeResponse` dispatches on `data.files || data.host || {}`
(a present `files` object is preferred, else `host`, else empty). When that
mapping is empty it emits exactly the one invalid-scrape-response warning
(so zero scrape events); otherwise it emits no warning and exactly one
scrape event per info-hash key, carrying the announce URL, the hex-encoded
info hash, `complete`, `incomplete` and `downloaded`. -/
theorem C7_scrape_response_dispatch (t : HTTPTracker) (d : ScrapeResponseData) :
    (chosenMapping d = [] →
      t._onScrapeResponse d = [ClientEvent.warning "invalid scrape response"]) ∧
    (chosenMapping d ≠ [] →
      warningEventCount (t._onScrapeResponse d) = 0 ∧
      scrapeEventCount (t._onScrapeResponse d) = (chosenMapping d).length ∧
      t._onScrapeResponse d = (chosenMapping d).map (fun kv =>
        ClientEvent.scrape t._announceUrl (binaryToHex kv.1)
          kv.2.complete kv.2.incomplete kv.2.downloaded)) := by
  constructor
  · intro h
    simp [HTTPTracker._onScrapeResponse, h]
  · intro h
    have hlen : ¬ (chosenMapping d).length = 0 := by
      simpa [List.length_eq_zero] using h
    have hres : t._onScrapeResponse d = (chosenMapping d).map (fun kv =>
        ClientEvent.scrape t._announceUrl (binaryToHex kv.1)
          kv.2.complete kv.2.incomplete kv.2.downloaded) := by
      simp [HTTPTracker._onScrapeResponse, hlen]
    refine ⟨?_, ?_, hres⟩
    · rw [hres]; exact (scrapeEvents_of_mapping_counts _ _).1
    · rw [hres]; exact (scrapeEvents_of_mapping_counts _ _).2

/-- C7 witness: a response with an empty (but present) `files` mapping yields
the single warning; a response whose `files` maps one info hash yields
zero warnings and one scrape event per key. -/
theorem C7_scrape_response_witness :
    chosenMapping { files := some [], host := none } = [] ∧
    ({ _announceUrl := "u", _intervalMs := 0, _optsInterval := none,
       _trackerId := none } : HTTPTracker)._onScrapeResponse
        { files := some [], host := none } =
      [ClientEvent.warning "invalid scrape response"] ∧
    chosenMapping
      { files := some [([255, 0], ⟨some 3, some 5, some 10⟩)], host := none } ≠ [] ∧
    scrapeEventCount
      (({ _announceUrl := "u", _intervalMs := 0, _optsInterval := none,
          _trackerId := none } : HTTPTracker)._onScrapeResponse
        { files := some [([255, 0], ⟨some 3, some 5, some 10⟩)], host := none }) =
      (chosenMapping
        { files := some [([255, 0], ⟨some 3, some 5, some 10⟩)], host := none }).length :=
  ⟨rfl,
   (C7_scrape_response_dispatch
     { _announceUrl := "u", _intervalMs := 0, _optsInterval := none,
       _trackerId := none }
     { files := some [], host := none }).1 rfl,
   by decide,
   ((C7_scrape_response_dispatch
     { _announceUrl := "u", _intervalMs := 0, _optsInterval := none,
       _trackerId := none }
     { files := some [([255, 0], ⟨some 3, some 5, some 10⟩)], host := none }).2
     (by decide)).2.1⟩

/-- C8: `Swarm.scrape` never looks at its `infoHash` or `params` arguments:
any two calls on the same registry state agree, and both return exactly the
registry's current `complete` and `incomplete` counts. -/
theorem C8_scrape_ignores_arguments {α β γ δ : Type}
    (s : Swarm) (a : α) (b : β) (c : γ) (d : δ) :
    s.scrape a b = s.scrape c d ∧ s.scrape a b = (s.complete, s.incomplete) :=
  ⟨rfl, rfl⟩

/-- C9: when the `peers` field is a compact byte-string and the compact
codec fails on it, `_onAnnounceResponse` emits exactly the `update` event
(already sent before the decode) followed by the warning, and returns: no
peer event is emitted, not even from `peers6`. -/
theorem C9_compact_decode_failure_stops_handler
    (decodeMulti decodeMulti6 : List Nat → Except String (List String))
    (t : HTTPTracker) (d : AnnounceResponseData) (b : List Nat) (e : String)
    (h1 : d.peers = PeersField.buf b)
    (h2 : decodeMulti b = Except.error e) :
    (HTTPTracker._onAnnounceResponse decodeMulti decodeMulti6 t d).2 =
      [ClientEvent.update t._announceUrl d.complete d.incomplete,
       ClientEvent.warning e] ∧
    peerEventCount
      (HTTPTracker._onAnnounceResponse decodeMulti decodeMulti6 t d).2 = 0 := by
  have hmain :
      (HTTPTracker._onAnnounceResponse decodeMulti decodeMulti6 t d).2 =
        [ClientEvent.update t._announceUrl d.complete d.incomplete,
         ClientEvent.warning e] := by
    simp [HTTPTracker._onAnnounceResponse, h1, h2]
  exact ⟨hmain, by rw [hmain]; rfl⟩

/-- C9 witness: a concrete response whose `peers` bytes make the codec fail
while `peers6` holds a decodable verbose list still yields only the update
event and the warning. -/
theorem C9_compact_decode_failure_witness :
    ({ interval := none, minInterval := none, trackerId := none,
       complete := some 3, incomplete := some 5,
       peers := PeersField.buf [1, 2, 3], peers6 := PeersField.list [("::1", 6881)] }
      : AnnounceResponseData).peers = PeersField.buf [1, 2, 3] ∧
    (fun _ : List Nat => (Except.error "boom" : Except String (List String))) [1, 2, 3] =
      Except.error "boom" ∧
    (HTTPTracker._onAnnounceResponse
      (fun _ => Except.error "boom") (fun _ => Except.ok [])
      { _announceUrl := "http://t/announce", _intervalMs := 0,
        _optsInterval := none, _trackerId := none }
      { interval := none, minInterval := none, trackerId := none,
        complete := some 3, incomplete := some 5,
        peers := PeersField.buf [1, 2, 3],
        peers6 := PeersField.list [("::1", 6881)] }).2 =
      [ClientEvent.update "http://t/announce" (some 3) (some 5),
       ClientEvent.warning "boom"] :=
  ⟨rfl, rfl,
   (C9_compact_decode_failure_stops_handler
     (fun _ => Except.error "boom") (fun _ => Except.ok [])
     { _announceUrl := "http://t/announce", _intervalMs := 0,
       _optsInterval := none, _trackerId := none }
     { interval := none, minInterval := none, trackerId := none,
       complete := some 3, incomplete := some 5,
       peers := PeersField.buf [1, 2, 3],
       peers6 := PeersField.list [("::1", 6881)] }
     [1, 2, 3] "boom" rfl rfl).1⟩

/-- C10: with an absent `numwant` the break guard
`peers.length >= undefined` is never true, so `_getPeers` applies no cap and
returns every non-tombstoned peer of the map in insertion order. -/
theorem C10_getPeers_no_numwant_no_cap (s : Swarm) :
    s._getPeers none = livePeers s.peers ∧
    (∀ len : Nat, numwantReached none len = false) := by
  refine ⟨?_, fun _ => rfl⟩
  unfold Swarm._getPeers
  rw [getPeersLoop_none_eq]
  simp
